import Mathlib

/-!
Verification development for the MCP JSON-RPC server (`main.py`).

The source file defines a set of JSON-RPC method handlers (capabilities
listing, a model-context record lookup, a web-search router, four sandboxed
file tools, prompt lookup) plus a line-oriented stdio transport loop.  This
file gives a shallow embedding of those handlers and proves the specified
properties about them.

Modelling conventions:
* Python module globals consumed by a handler (configuration tables, the
  record store, the sandbox filesystem, the process working directory) become
  explicit parameters of the embedded handler.
* `json.loads` (standard library, external to the repository) is modelled by
  `parseJson` below: a fueled recursive-descent parser for the JSON grammar
  restricted to integer numerals and to the common string escapes (no `\u`
  escapes, no floats).  All concrete JSON texts analysed in the theorems lie
  inside this fragment, and on them the model agrees with `json.loads`.
* Filesystem paths are lists of segments; `pathlib`'s `resolve()` is the
  lexical normalisation `resolve` below (the model has no symlinks), and
  `is_relative_to` is segment-list prefix testing.
* A handler that can raise an uncaught Python exception is embedded in
  `Except String`, with `.error` marking the raised exception.
-/

/-- JSON values, the result type of the modelled `json.loads`. -/
inductive Json where
  | null
  | bool (b : Bool)
  | num (n : Int)
  | str (s : String)
  | arr (elems : List Json)
  | obj (members : List (String × Json))

/-- Drop leading JSON whitespace. -/
def skipWs (cs : List Char) : List Char :=
  cs.dropWhile (fun c => c == ' ' || c == '\n' || c == '\t' || c == '\r')

/-- Translate a character appearing after a backslash in a JSON string. -/
def escChar (e : Char) : Option Char :=
  if e = '"' || e = '\\' || e = '/' then some e
  else if e = 'n' then some '\n'
  else if e = 't' then some '\t'
  else if e = 'r' then some '\r'
  else if e = 'b' then some (Char.ofNat 8)
  else if e = 'f' then some (Char.ofNat 12)
  else none

/-- Parse the remainder of a JSON string literal (the opening quote has been
consumed), returning the decoded string and the input after the closing
quote. -/
def pString : List Char → Option (String × List Char)
  | [] => none
  | '\\' :: rest =>
    match rest with
    | [] => none
    | e :: rest2 =>
      match escChar e with
      | none => none
      | some c =>
        match pString rest2 with
        | none => none
        | some (s, r) => some (⟨c :: s.data⟩, r)
  | '"' :: rest => some ("", rest)
  | c :: rest =>
    match pString rest with
    | none => none
    | some (s, r) => some (⟨c :: s.data⟩, r)

/-- Value of a decimal digit string. -/
def digitsToNat (ds : List Char) : Nat :=
  ds.foldl (fun a c => a * 10 + (c.toNat - 48)) 0

/-- Parse a JSON numeral (integer fragment: optional minus sign and digits;
a fractional part or exponent is out of the modelled fragment). -/
def pNumber (cs : List Char) : Option (Json × List Char) :=
  let hd := match cs with
    | '-' :: r => (true, r)
    | _ => (false, cs)
  let ds := hd.2.takeWhile Char.isDigit
  let rest := hd.2.dropWhile Char.isDigit
  if ds.isEmpty then none
  else
    match rest with
    | '.' :: _ => none
    | 'e' :: _ => none
    | 'E' :: _ => none
    | _ =>
      let n : Int := Int.ofNat (digitsToNat ds)
      some (Json.num (if hd.1 then -n else n), rest)

mutual

/-- Parse one JSON value; fuel bounds the recursion depth. -/
def pVal : Nat → List Char → Option (Json × List Char)
  | 0, _ => none
  | fuel + 1, cs =>
    match skipWs cs with
    | 'n' :: 'u' :: 'l' :: 'l' :: rest => some (Json.null, rest)
    | 't' :: 'r' :: 'u' :: 'e' :: rest => some (Json.bool true, rest)
    | 'f' :: 'a' :: 'l' :: 's' :: 'e' :: rest => some (Json.bool false, rest)
    | '"' :: rest =>
      match pString rest with
      | none => none
      | some (s, r) => some (Json.str s, r)
    | '[' :: rest =>
      match pElems fuel true (skipWs rest) with
      | none => none
      | some (vs, r) => some (Json.arr vs, r)
    | '{' :: rest =>
      match pMembers fuel true (skipWs rest) with
      | none => none
      | some (ms, r) => some (Json.obj ms, r)
    | cs2 => pNumber cs2

/-- Parse array elements up to the closing bracket; `allowEmpty` is true only
before the first element, so a trailing comma is rejected. -/
def pElems : Nat → Bool → List Char → Option (List Json × List Char)
  | 0, _, _ => none
  | fuel + 1, allowEmpty, cs =>
    match cs with
    | ']' :: rest => if allowEmpty then some ([], rest) else none
    | _ =>
      match pVal fuel cs with
      | none => none
      | some (v, r) =>
        match skipWs r with
        | ',' :: r2 =>
          match pElems fuel false (skipWs r2) with
          | none => none
          | some (vs, r3) => some (v :: vs, r3)
        | ']' :: r2 => some ([v], r2)
        | _ => none

/-- Parse object members up to the closing brace; `allowEmpty` is true only
before the first member. -/
def pMembers : Nat → Bool → List Char → Option (List (String × Json) × List Char)
  | 0, _, _ => none
  | fuel + 1, allowEmpty, cs =>
    match cs with
    | '}' :: rest => if allowEmpty then some ([], rest) else none
    | '"' :: rest =>
      match pString rest with
      | none => none
      | some (k, r) =>
        match skipWs r with
        | ':' :: r2 =>
          match pVal fuel (skipWs r2) with
          | none => none
          | some (v, r3) =>
            match skipWs r3 with
            | ',' :: r4 =>
              match pMembers fuel false (skipWs r4) with
              | none => none
              | some (ms, r5) => some ((k, v) :: ms, r5)
            | '}' :: r4 => some ([(k, v)], r4)
            | _ => none
        | _ => none
    | _ => none

end

/-- Model of `json.loads` on the fragment described in the header: `some v`
when the whole input is one JSON value, `none` when parsing fails. -/
def parseJson (s : String) : Option Json :=
  match pVal (s.length + 1) s.data with
  | none => none
  | some (v, rest) => if (skipWs rest).isEmpty then some v else none

/-- Outcome of a handler, mirroring `jsonrpcserver`'s `Success(value)` and the
source's `Error(code, message)`. -/
inductive RpcResult where
  | success (val : Json)
  | error (code : Int) (message : String)

/-! ## Path model (`pathlib` fragment used by the file tools)

A path is a list of segments.  `Path("sandbox") / filename` followed by
`.resolve()` is modelled by `resolvedPath cwd filename`; the working
directory `cwd` is the implicit base `pathlib` resolves against. -/

/-- Split a filename into `/`-separated segments, as `pathlib` parses it. -/
def splitSegsAux : List Char → List Char → List String
  | [], acc => [⟨acc.reverse⟩]
  | '/' :: rest, acc => (⟨acc.reverse⟩ : String) :: splitSegsAux rest []
  | c :: rest, acc => splitSegsAux rest (c :: acc)

/-- Segments of a filename string. -/
def segsOf (filename : String) : List String :=
  splitSegsAux filename.data []

/-- A filename is absolute when it starts with `/`; then `Path("sandbox") /
filename` discards the `sandbox` base, as `pathlib` joining does. -/
def isAbsolute (filename : String) : Bool :=
  match filename.data with
  | '/' :: _ => true
  | _ => false

/-- One step of lexical path normalisation: empty and `.` segments vanish,
`..` removes the last segment (at the root it stays at the root, as POSIX
`/..` does), anything else is appended. -/
def resolveStep (acc : List String) (seg : String) : List String :=
  if seg = "" then acc
  else if seg = "." then acc
  else if seg = ".." then acc.dropLast
  else acc ++ [seg]

/-- Lexical normalisation of a segment list, the model of `Path.resolve()`
in a symlink-free filesystem. -/
def resolve (segs : List String) : List String :=
  segs.foldl resolveStep []

/-- The canonicalised sandbox root, `pathlib.Path("sandbox").resolve()`. -/
def sandboxRoot (cwd : List String) : List String :=
  resolve (cwd ++ ["sandbox"])

/-- The canonicalised target of a file tool request,
`(pathlib.Path("sandbox") / filename).resolve()`. -/
def resolvedPath (cwd : List String) (filename : String) : List String :=
  resolve (if isAbsolute filename then segsOf filename else cwd ++ ["sandbox"] ++ segsOf filename)

/-- Model of `Path.is_relative_to`: `root` is a prefix of (or equal to) `p`. -/
def is_relative_to (p root : List String) : Bool :=
  match p, root with
  | _, [] => true
  | [], _ :: _ => false
  | x :: xs, r :: rs => x = r && is_relative_to xs rs

/-! ## Filesystem state -/

/-- First value stored under a path key. -/
def findVal (p : List String) : List (List String × String) → Option String
  | [] => none
  | (k, v) :: rest => if k = p then some v else findVal p rest

/-- Whether a directory list holds a path. -/
def containsPath (p : List String) : List (List String) → Bool
  | [] => false
  | d :: rest => if d = p then true else containsPath p rest

/-- Remove every entry stored under a path key. -/
def eraseKey (p : List String) : List (List String × String) → List (List String × String)
  | [] => []
  | (k, v) :: rest => if k = p then eraseKey p rest else (k, v) :: eraseKey p rest

/-- The filesystem visible to the file tools: regular files (resolved path to
text content) and directories (resolved paths).  The sandbox directory is
created at startup, so in every reachable state it is among `dirs`. -/
structure FS where
  files : List (List String × String)
  dirs : List (List String)

/-- Message of the `-32003` traversal denial shared by the file tools. -/
def deniedMsg : String := "Operation denied: Path traversal attempt detected."

/-- Embedding of `tool_file_read_handler` (src/main.py:216).  Containment of
the resolved path is checked first; then `file_path.exists()` (true for a
file or a directory); opening a directory raises `IsADirectoryError`, caught
as a `-32002` error.  The source stats and opens the raw joined path; the
model does both at the resolved path, which agrees with the source whenever
every directory component the raw path crosses exists — all inputs the
theorems below evaluate satisfy this. -/
def tool_file_read_handler (fs : FS) (cwd : List String) (filename : String) : RpcResult :=
  if is_relative_to (resolvedPath cwd filename) (sandboxRoot cwd) = false then
    .error (-32003) deniedMsg
  else if (findVal (resolvedPath cwd filename) fs.files).isNone
      && !containsPath (resolvedPath cwd filename) fs.dirs then
    .error (-32004) ("File '" ++ filename ++ "' not found in sandbox.")
  else
    match findVal (resolvedPath cwd filename) fs.files with
    | some content => .success (Json.obj [("content", Json.str content)])
    | none => .error (-32002) "Error reading file: [Errno 21] Is a directory"

/-- Embedding of `tool_file_write_handler` (src/main.py:236).  After the
containment check, `open(file_path, mode)` raises (caught as `-32002`) when
the target is a directory or its parent directory is missing; otherwise mode
`"a"` appends to the current content (empty for a fresh file) and mode `"w"`
replaces it.  Returns the response together with the updated filesystem.
As for reading, the open is modelled at the resolved path. -/
def tool_file_write_handler (fs : FS) (cwd : List String) (filename content : String)
    (append : Bool) : RpcResult × FS :=
  if is_relative_to (resolvedPath cwd filename) (sandboxRoot cwd) = false then
    (.error (-32003) deniedMsg, fs)
  else if containsPath (resolvedPath cwd filename) fs.dirs then
    (.error (-32002) "Error writing file: [Errno 21] Is a directory", fs)
  else if containsPath (resolvedPath cwd filename).dropLast fs.dirs = false then
    (.error (-32002) "Error writing file: [Errno 2] No such file or directory", fs)
  else
    (.success (Json.obj [("message", Json.str
        (if append then "Successfully appended to '" ++ filename ++ "' in sandbox."
         else "Successfully wrote '" ++ filename ++ "' in sandbox."))]),
     ⟨(resolvedPath cwd filename,
       if append then ((findVal (resolvedPath cwd filename) fs.files).getD "") ++ content
       else content) :: eraseKey (resolvedPath cwd filename) fs.files,
      fs.dirs⟩)

/-- Embedding of `tool_file_delete_handler` (src/main.py:269): containment
check, then existence check, then `unlink` (raising on a directory, caught as
`-32002`).  As for reading, the existence check and the unlink are modelled
at the resolved path. -/
def tool_file_delete_handler (fs : FS) (cwd : List String) (filename : String) : RpcResult × FS :=
  if is_relative_to (resolvedPath cwd filename) (sandboxRoot cwd) = false then
    (.error (-32003) deniedMsg, fs)
  else if (findVal (resolvedPath cwd filename) fs.files).isNone
      && !containsPath (resolvedPath cwd filename) fs.dirs then
    (.error (-32004) ("File '" ++ filename ++ "' not found in sandbox."), fs)
  else if containsPath (resolvedPath cwd filename) fs.dirs then
    (.error (-32002) "Error deleting file: [Errno 21] Is a directory", fs)
  else
    (.success (Json.obj [("message", Json.str
        ("Successfully deleted '" ++ filename ++ "' from sandbox."))]),
     ⟨eraseKey (resolvedPath cwd filename) fs.files, fs.dirs⟩)

/-- Names of the regular files directly inside `root`, the model of
`[f.name for f in pathlib.Path("sandbox").iterdir() if f.is_file()]`. -/
def sandboxFileNames (root : List String) : List (List String × String) → List String
  | [] => []
  | (k, _) :: rest =>
    if k.dropLast = root then
      match k.getLast? with
      | some n => n :: sandboxFileNames root rest
      | none => sandboxFileNames root rest
    else sandboxFileNames root rest

/-- Embedding of `tool_file_list_handler` (src/main.py:260). -/
def tool_file_list_handler (fs : FS) (cwd : List String) : RpcResult :=
  .success (Json.obj [("files", Json.arr ((sandboxFileNames (sandboxRoot cwd) fs.files).map Json.str))])

/-! ## capabilities/list -/

/-- Embedding of `capabilities_list_handler` (src/main.py:86): a static
descriptor whose resources list is extended by one URI template per key of
`resources_config` (the keys, in configuration order). -/
def capabilities_list_handler (resources_config : List String) : RpcResult :=
  .success (Json.obj [
    ("resources", Json.arr
      ((resources_config.foldl
          (fun acc t => acc ++ ["resource://" ++ t ++ "/\x7bresource_id\x7d"])
          ["resource://model-context/\x7bmodel_id\x7d"]).map Json.str)),
    ("tools", Json.arr
      (["tool://web-search", "tool://file-read", "tool://file-write",
        "tool://file-list", "tool://file-delete"].map Json.str)),
    ("prompts", Json.arr
      (["prompt://list", "prompt://\x7bprompt_name\x7d"].map Json.str))])

/-! ## tool/web-search -/

/-- Configuration of one search backend; `api_config.get("enabled", False)`
defaults to disabled. -/
structure ApiConfig where
  enabled : Bool := false

/-- First configuration stored under an API name. -/
def lookupApi (name : String) : List (String × ApiConfig) → Option ApiConfig
  | [] => none
  | (k, v) :: rest => if k = name then some v else lookupApi name rest

/-- The `search_config.json` table: the `"default"` key (`dflt` here) and the
`"apis"` mapping. -/
structure SearchConfig where
  dflt : Option String := none
  apis : List (String × ApiConfig) := []

/-- The provider the handler will use: `api or search_config.get("default",
"bing")` — a `None` or empty `api` argument falls back to the configured
default, and failing that to `"bing"`. -/
def resolveApiName (cfg : SearchConfig) (api : Option String) : String :=
  match api with
  | some a => if a = "" then cfg.dflt.getD "bing" else a
  | none => cfg.dflt.getD "bing"

/-- What `tool_web_search_handler` does before any network traffic: either a
typed error, or delegation to one of the two provider adapters (which is
where the first network request could happen). -/
inductive SearchStep where
  | err (code : Int) (message : String)
  | callBing (query : String)
  | callGoogle (query : String)

/-- Embedding of `tool_web_search_handler` (src/main.py:129): resolve the
provider name, require `enabled` in configuration, and route to the matching
provider adapter; an enabled but unknown provider is rejected. -/
def tool_web_search_handler (cfg : SearchConfig) (query : String) (api : Option String) : SearchStep :=
  if ((lookupApi (resolveApiName cfg api) cfg.apis).getD {}).enabled = false then
    .err (-32001)
      ("Configuration error: '" ++ resolveApiName cfg api ++ "' API not enabled or misconfigured.")
  else if resolveApiName cfg api = "bing" then .callBing query
  else if resolveApiName cfg api = "google" then .callGoogle query
  else .err (-32001) ("Unsupported search API: " ++ resolveApiName cfg api)

/-! ## resource/model-context -/

/-- A row of the model-context store (class `ModelContextDB`,
src/main.py:50); `parameters` and `metrics` hold JSON text, `metrics` is
nullable. -/
structure ModelContextDB where
  model_id : String
  version : String
  status : String
  parameters : String
  metrics : Option String

/-- First record matching a model id, the embedding of
`select(...).where(ModelContextDB.model_id == model_id)` followed by
`.first()`. -/
def find_model_context (mid : String) : List ModelContextDB → Option ModelContextDB
  | [] => none
  | r :: rest => if r.model_id = mid then some r else find_model_context mid rest

/-- Embedding of `resource_model_context_handler` (src/main.py:112).  The
handler has no `try`/`except`: a `json.loads` failure on the stored fields
escapes as an exception, modelled by the `Except.error` case.  A `None` (or
empty, hence falsy) `metrics` column maps to a JSON `null` field. -/
def resource_model_context_handler (store : List ModelContextDB) (model_id : String) :
    Except String RpcResult :=
  match find_model_context model_id store with
  | none => .ok (.error (-32004)
      ("Resource not found: Model ID '" ++ model_id ++ "' not found."))
  | some r =>
    match parseJson r.parameters with
    | none => .error "json.JSONDecodeError"
    | some params =>
      match r.metrics with
      | none => .ok (.success (Json.obj [("version", Json.str r.version),
          ("status", Json.str r.status), ("parameters", params), ("metrics", Json.null)]))
      | some m =>
        if m = "" then .ok (.success (Json.obj [("version", Json.str r.version),
            ("status", Json.str r.status), ("parameters", params), ("metrics", Json.null)]))
        else
          match parseJson m with
          | none => .error "json.JSONDecodeError"
          | some mv => .ok (.success (Json.obj [("version", Json.str r.version),
              ("status", Json.str r.status), ("parameters", params), ("metrics", mv)]))

/-! ## prompt/\x7bprompt_name\x7d -/

/-- Python truthiness of a JSON value (`if not prompt`). -/
def pyTruthy : Json → Bool
  | .null => false
  | .bool b => b
  | .num n => n != 0
  | .str s => s != ""
  | .arr elems => !elems.isEmpty
  | .obj members => !members.isEmpty

/-- First JSON value stored under a string key. -/
def lookupJson (key : String) : List (String × Json) → Option Json
  | [] => none
  | (k, v) :: rest => if k = key then some v else lookupJson key rest

/-- Embedding of `prompt_handler` (src/main.py:293): a missing or falsy
configuration entry is reported as not found; on a (truthy) object entry the
`template` and `description` fields default to the empty string; a truthy
non-object entry would make `prompt.get` raise `AttributeError`. -/
def prompt_handler (prompts_config : List (String × Json)) (prompt_name : String) :
    Except String RpcResult :=
  match lookupJson prompt_name prompts_config with
  | none => .ok (.error (-32004) ("Prompt '" ++ prompt_name ++ "' not found."))
  | some prompt =>
    if pyTruthy prompt = false then
      .ok (.error (-32004) ("Prompt '" ++ prompt_name ++ "' not found."))
    else
      match prompt with
      | Json.obj members =>
        .ok (.success (Json.obj [
          ("template", (lookupJson "template" members).getD (Json.str "")),
          ("description", (lookupJson "description" members).getD (Json.str ""))]))
      | _ => .error "AttributeError"

/-! ## stdio transport loop -/

/-- The line printed on a JSON parse failure (src/main.py:390). -/
def parse_error_response : Json :=
  Json.obj [("jsonrpc", Json.str "2.0"),
    ("error", Json.obj [("code", Json.num (-32700)), ("message", Json.str "Parse error")]),
    ("id", Json.null)]

/-- Embedding of `main_stdio` (src/main.py:376).  The input is the sequence
of lines `readline` yields, where `""` marks end of the stream; `dispatch`
abstracts `async_dispatch` of the external `jsonrpcserver` library.  The
result is the sequence of response lines written to standard output. -/
def main_stdio (dispatch : Json → Json) : List String → List Json
  | [] => []
  | line :: rest =>
    if line = "" then []
    else
      (match parseJson line with
       | some req => dispatch req
       | none => parse_error_response) :: main_stdio dispatch rest

/-- Whether the raw filename text contains a `../` sequence. -/
def hasDotDotSlash : List Char → Bool
  | '.' :: '.' :: '/' :: _ => true
  | _ :: rest => hasDotDotSlash rest
  | [] => false

/-! ## Helper lemmas -/

theorem is_relative_to_append_self (root ys : List String) :
    is_relative_to (root ++ ys) root = true := by
  induction root with
  | nil => cases ys <;> rfl
  | cons r rs ih => simp [is_relative_to, ih]

theorem dropLast_append_one {α : Type} (xs : List α) (a : α) :
    (xs ++ [a]).dropLast = xs := by
  simp

theorem eq_dropLast_append_of_getLast?_eq_some {α : Type} :
    ∀ (k : List α) (a : α), k.getLast? = some a → k = k.dropLast ++ [a] := by
  intro k
  induction k with
  | nil => intro a h; cases h
  | cons x xs ih =>
    intro a h
    cases xs with
    | nil => simp only [List.getLast?_singleton, Option.some.injEq] at h; simp [h]
    | cons y ys =>
      have h' : (y :: ys).getLast? = some a := by
        simpa [List.getLast?_cons_cons] using h
      have := ih a h'
      simp only [List.dropLast_cons₂, List.cons_append]
      exact congrArg (x :: ·) this

theorem not_mem_sandboxFileNames_eraseKey (root : List String) (f : String) :
    ∀ files, f ∉ sandboxFileNames root (eraseKey (root ++ [f]) files) := by
  intro files
  induction files with
  | nil => simp [sandboxFileNames, eraseKey]
  | cons e rest ih =>
    obtain ⟨k, v⟩ := e
    by_cases hk : k = root ++ [f]
    · simpa [eraseKey, hk] using ih
    · simp only [eraseKey, if_neg hk]
      by_cases hdrop : k.dropLast = root
      · cases hlast : k.getLast? with
        | none => simpa [sandboxFileNames, hdrop, hlast] using ih
        | some n =>
          simp only [sandboxFileNames, hdrop, hlast, if_pos, List.mem_cons, not_or]
          refine ⟨?_, ih⟩
          intro hnf
          apply hk
          rw [eq_dropLast_append_of_getLast?_eq_some k n hlast, hdrop, hnf]
      · simpa [sandboxFileNames, hdrop] using ih

theorem foldl_append_singleton_eq_map (g : String → String) :
    ∀ (rc acc : List String),
      rc.foldl (fun a t => a ++ [g t]) acc = acc ++ rc.map g := by
  intro rc
  induction rc with
  | nil => intro acc; simp
  | cons t ts ih => intro acc; simp [List.foldl_cons, ih]

/-! ## Claim theorems -/

/-- C1 counterexample: the claim demands that every filename containing a
`../` sequence be denied with code `-32003`, but the code decides on the
resolved path: on a filesystem holding the directories `sandbox` and
`sandbox/d` and the file `sandbox/f.txt`, the filename `"d/../f.txt"`
contains `../`, its raw joined path crosses only existing components, it
resolves inside the sandbox, and `tool/file-read` happily reads the file
instead of denying the request. -/
theorem c1_counterexample :
    hasDotDotSlash "d/../f.txt".data = true ∧
    tool_file_read_handler
        ⟨[(["home", "user", "sandbox", "f.txt"], "x")],
         [["home", "user", "sandbox"], ["home", "user", "sandbox", "d"]]⟩
        ["home", "user"] "d/../f.txt"
      = RpcResult.success (Json.obj [("content", Json.str "x")]) :=
  ⟨rfl, rfl⟩

/-- C1 (amended): for every filename whose resolved path escapes the sandbox
root — which covers every `../` sequence or absolute path that actually
leaves the sandbox, in particular `"../../etc/passwd"` — each sandboxed file
tool returns the denied error `-32003` and performs no filesystem I/O: the
result is independent of the filesystem contents and the filesystem is
returned unchanged. -/
theorem c1_escaping_paths_denied (fs : FS) (cwd : List String) (filename : String)
    (h : is_relative_to (resolvedPath cwd filename) (sandboxRoot cwd) = false) :
    tool_file_read_handler fs cwd filename = RpcResult.error (-32003) deniedMsg ∧
    (∀ content append, tool_file_write_handler fs cwd filename content append
        = (RpcResult.error (-32003) deniedMsg, fs)) ∧
    tool_file_delete_handler fs cwd filename = (RpcResult.error (-32003) deniedMsg, fs) := by
  refine ⟨?_, fun content append => ?_, ?_⟩ <;>
    simp [tool_file_read_handler, tool_file_write_handler, tool_file_delete_handler, h]

/-- Witness for C1 (amended): `"../../etc/passwd"` escapes the sandbox under
the working directory `/home/user`, and `tool/file-read` denies it. -/
theorem c1_escaping_paths_denied_witness :
    tool_file_read_handler ⟨[], [["home", "user", "sandbox"]]⟩ ["home", "user"] "../../etc/passwd"
      = RpcResult.error (-32003) deniedMsg :=
  (c1_escaping_paths_denied ⟨[], [["home", "user", "sandbox"]]⟩ ["home", "user"]
    "../../etc/passwd" rfl).1

/-- C2: when the resolved path of a filename falls outside the sandbox root,
`tool/file-read` and `tool/file-delete` answer `-32003` before any existence
check or I/O — even on a filesystem where nothing exists at that path the
response is the denial, never `-32004`, and the test is on the resolved
path. -/
theorem c2_denial_precedes_existence (fs : FS) (cwd : List String) (filename : String)
    (h : is_relative_to (resolvedPath cwd filename) (sandboxRoot cwd) = false)
    (_hnofile : findVal (resolvedPath cwd filename) fs.files = none)
    (_hnodir : containsPath (resolvedPath cwd filename) fs.dirs = false) :
    tool_file_read_handler fs cwd filename = RpcResult.error (-32003) deniedMsg ∧
    tool_file_delete_handler fs cwd filename = (RpcResult.error (-32003) deniedMsg, fs) := by
  constructor <;> simp [tool_file_read_handler, tool_file_delete_handler, h]

/-- Witness for C2: on an empty filesystem the absolute filename
`"/etc/shadow"` (no such file anywhere) is denied with `-32003`, not
reported `-32004`. -/
theorem c2_denial_precedes_existence_witness :
    tool_file_read_handler ⟨[], []⟩ ["home", "user"] "/etc/shadow"
        = RpcResult.error (-32003) deniedMsg ∧
    tool_file_delete_handler ⟨[], []⟩ ["home", "user"] "/etc/shadow"
        = (RpcResult.error (-32003) deniedMsg, ⟨[], []⟩) :=
  c2_denial_precedes_existence ⟨[], []⟩ ["home", "user"] "/etc/shadow" rfl rfl rfl

/-- C3 (code bug in the source): `resource_model_context_handler` is the one
handler with no `try`/`except`, so on a store whose matching record carries
parameters that are not valid JSON the `json.loads` call raises and the
exception escapes the handler boundary instead of becoming a typed error;
the embedding evaluates to the raised-exception outcome at that input. -/
theorem c3_model_context_uncaught_parse_exception :
    resource_model_context_handler [⟨"m1", "1", "ready", "not json", none⟩] "m1"
      = Except.error "json.JSONDecodeError" :=
  rfl

/-- C4: for every filename that resolves to a direct child of the sandbox
root (for instance `"a.txt"`), writing content `"hi"` and then reading the
same filename yields `"hi"`, and deleting it afterwards leaves a
`tool/file-list` result that does not contain the filename. -/
theorem c4_write_read_delete_list_round_trip (fs : FS) (cwd : List String) (f : String)
    (hres : resolvedPath cwd f = sandboxRoot cwd ++ [f])
    (hroot : containsPath (sandboxRoot cwd) fs.dirs = true)
    (hnotdir : containsPath (sandboxRoot cwd ++ [f]) fs.dirs = false) :
    tool_file_read_handler (tool_file_write_handler fs cwd f "hi" false).2 cwd f
        = RpcResult.success (Json.obj [("content", Json.str "hi")]) ∧
    f ∉ sandboxFileNames (sandboxRoot cwd)
        ((tool_file_delete_handler (tool_file_write_handler fs cwd f "hi" false).2 cwd f).2).files := by
  constructor
  · simp [tool_file_read_handler, tool_file_write_handler, hres,
      is_relative_to_append_self, hroot, hnotdir, dropLast_append_one, findVal]
  · have h := not_mem_sandboxFileNames_eraseKey (sandboxRoot cwd) f
      (eraseKey (sandboxRoot cwd ++ [f]) fs.files)
    simpa [tool_file_delete_handler, tool_file_write_handler, hres,
      is_relative_to_append_self, hroot, hnotdir, dropLast_append_one, findVal, eraseKey] using h

/-- Witness for C4: concrete round trip of `"a.txt"` under working directory
`/home` on a filesystem holding only the sandbox directory. -/
theorem c4_write_read_delete_list_round_trip_witness :
    tool_file_read_handler
        (tool_file_write_handler ⟨[], [["home", "sandbox"]]⟩ ["home"] "a.txt" "hi" false).2
        ["home"] "a.txt"
      = RpcResult.success (Json.obj [("content", Json.str "hi")]) ∧
    "a.txt" ∉ sandboxFileNames (sandboxRoot ["home"])
        ((tool_file_delete_handler
          (tool_file_write_handler ⟨[], [["home", "sandbox"]]⟩ ["home"] "a.txt" "hi" false).2
          ["home"] "a.txt").2).files :=
  c4_write_read_delete_list_round_trip ⟨[], [["home", "sandbox"]]⟩ ["home"] "a.txt" rfl rfl rfl

/-- C5: for every filename resolving to a direct child of the sandbox root,
writing `"a"` and then writing `"b"` with `append=true` yields `"ab"` on a
subsequent read, while a second write with `append=false` yields `"b"`; the
two success messages distinguish appending from overwriting. -/
theorem c5_append_semantics (fs : FS) (cwd : List String) (f : String)
    (hres : resolvedPath cwd f = sandboxRoot cwd ++ [f])
    (hroot : containsPath (sandboxRoot cwd) fs.dirs = true)
    (hnotdir : containsPath (sandboxRoot cwd ++ [f]) fs.dirs = false) :
    (tool_file_write_handler (tool_file_write_handler fs cwd f "a" false).2 cwd f "b" true).1
        = RpcResult.success (Json.obj [("message",
            Json.str ("Successfully appended to '" ++ f ++ "' in sandbox."))]) ∧
    tool_file_read_handler
        (tool_file_write_handler (tool_file_write_handler fs cwd f "a" false).2 cwd f "b" true).2
        cwd f
        = RpcResult.success (Json.obj [("content", Json.str "ab")]) ∧
    (tool_file_write_handler (tool_file_write_handler fs cwd f "a" false).2 cwd f "b" false).1
        = RpcResult.success (Json.obj [("message",
            Json.str ("Successfully wrote '" ++ f ++ "' in sandbox."))]) ∧
    tool_file_read_handler
        (tool_file_write_handler (tool_file_write_handler fs cwd f "a" false).2 cwd f "b" false).2
        cwd f
        = RpcResult.success (Json.obj [("content", Json.str "b")]) := by
  refine ⟨?_, ?_, ?_, ?_⟩ <;>
    simp [tool_file_read_handler, tool_file_write_handler, hres,
      is_relative_to_append_self, hroot, hnotdir, dropLast_append_one, findVal]

/-- Witness for C5: concrete append and overwrite of `"a.txt"` under working
directory `/home`. -/
theorem c5_append_semantics_witness :
    (tool_file_write_handler
        (tool_file_write_handler ⟨[], [["home", "sandbox"]]⟩ ["home"] "a.txt" "a" false).2
        ["home"] "a.txt" "b" true).1
        = RpcResult.success (Json.obj [("message",
            Json.str ("Successfully appended to '" ++ "a.txt" ++ "' in sandbox."))]) ∧
    tool_file_read_handler
        (tool_file_write_handler
          (tool_file_write_handler ⟨[], [["home", "sandbox"]]⟩ ["home"] "a.txt" "a" false).2
          ["home"] "a.txt" "b" true).2
        ["home"] "a.txt"
        = RpcResult.success (Json.obj [("content", Json.str "ab")]) ∧
    (tool_file_write_handler
        (tool_file_write_handler ⟨[], [["home", "sandbox"]]⟩ ["home"] "a.txt" "a" false).2
        ["home"] "a.txt" "b" false).1
        = RpcResult.success (Json.obj [("message",
            Json.str ("Successfully wrote '" ++ "a.txt" ++ "' in sandbox."))]) ∧
    tool_file_read_handler
        (tool_file_write_handler
          (tool_file_write_handler ⟨[], [["home", "sandbox"]]⟩ ["home"] "a.txt" "a" false).2
          ["home"] "a.txt" "b" false).2
        ["home"] "a.txt"
        = RpcResult.success (Json.obj [("content", Json.str "b")]) :=
  c5_append_semantics ⟨[], [["home", "sandbox"]]⟩ ["home"] "a.txt" rfl rfl rfl

/-- C6: for every configuration state, `capabilities/list` succeeds, its
tools list is exactly the five fixed tool URIs, and its resources list is the
fixed model-context template followed by one template per configured resource
type, in configuration order. -/
theorem c6_capabilities_shape (resources_config : List String) :
    capabilities_list_handler resources_config
      = RpcResult.success (Json.obj [
        ("resources", Json.arr
          (("resource://model-context/\x7bmodel_id\x7d" ::
            resources_config.map (fun t => "resource://" ++ t ++ "/\x7bresource_id\x7d")).map Json.str)),
        ("tools", Json.arr
          (["tool://web-search", "tool://file-read", "tool://file-write",
            "tool://file-list", "tool://file-delete"].map Json.str)),
        ("prompts", Json.arr
          (["prompt://list", "prompt://\x7bprompt_name\x7d"].map Json.str))]) := by
  simp [capabilities_list_handler, foldl_append_singleton_eq_map]

/-- C7: whenever the provider the request resolves to (the explicit `api`
argument, else the configured default, else `"bing"`) is absent from the
configuration or present with `enabled=false`, `tool/web-search` answers the
configuration error `-32001` without reaching a provider adapter, so no
network call is attempted; an enabled provider that is neither `bing` nor
`google` is likewise rejected with `-32001`. -/
theorem c7_web_search_config_errors (cfg : SearchConfig) (query : String) (api : Option String) :
    ((lookupApi (resolveApiName cfg api) cfg.apis = none ∨
      ∃ c, lookupApi (resolveApiName cfg api) cfg.apis = some c ∧ c.enabled = false) →
      tool_web_search_handler cfg query api
        = SearchStep.err (-32001)
            ("Configuration error: '" ++ resolveApiName cfg api
              ++ "' API not enabled or misconfigured.")) ∧
    (∀ c, lookupApi (resolveApiName cfg api) cfg.apis = some c → c.enabled = true →
      resolveApiName cfg api ≠ "bing" → resolveApiName cfg api ≠ "google" →
      tool_web_search_handler cfg query api
        = SearchStep.err (-32001) ("Unsupported search API: " ++ resolveApiName cfg api)) := by
  constructor
  · rintro (hnone | ⟨c, hc, hdis⟩)
    · simp [tool_web_search_handler, hnone]
    · simp [tool_web_search_handler, hc, hdis]
  · intro c hc hen hb hg
    simp [tool_web_search_handler, hc, hen, hb, hg]

/-- Witness for C7: with default `"bing"` disabled, a `"duck"` backend
enabled, no entry for `"nope"`, all three rejection paths answer `-32001`. -/
theorem c7_web_search_config_errors_witness :
    tool_web_search_handler ⟨some "bing", [("bing", ⟨false⟩), ("duck", ⟨true⟩)]⟩ "q" (some "nope")
        = SearchStep.err (-32001) "Configuration error: 'nope' API not enabled or misconfigured." ∧
    tool_web_search_handler ⟨some "bing", [("bing", ⟨false⟩), ("duck", ⟨true⟩)]⟩ "q" none
        = SearchStep.err (-32001) "Configuration error: 'bing' API not enabled or misconfigured." ∧
    tool_web_search_handler ⟨some "bing", [("bing", ⟨false⟩), ("duck", ⟨true⟩)]⟩ "q" (some "duck")
        = SearchStep.err (-32001) "Unsupported search API: duck" :=
  ⟨(c7_web_search_config_errors ⟨some "bing", [("bing", ⟨false⟩), ("duck", ⟨true⟩)]⟩
      "q" (some "nope")).1 (Or.inl rfl),
   (c7_web_search_config_errors ⟨some "bing", [("bing", ⟨false⟩), ("duck", ⟨true⟩)]⟩
      "q" none).1 (Or.inr ⟨⟨false⟩, rfl, rfl⟩),
   (c7_web_search_config_errors ⟨some "bing", [("bing", ⟨false⟩), ("duck", ⟨true⟩)]⟩
      "q" (some "duck")).2 ⟨true⟩ rfl rfl (by decide) (by decide)⟩

/-- C8: `resource/model-context` returns the first record whose `model_id`
matches: with no match the answer is the not-found error `-32004`; with a
match whose `metrics` column is absent the answer is a success whose
`metrics` field is JSON `null` (not an error), `parameters` being the parsed
stored JSON text. -/
theorem c8_model_context_lookup (store : List ModelContextDB) (model_id : String) :
    (find_model_context model_id store = none →
      resource_model_context_handler store model_id
        = Except.ok (RpcResult.error (-32004)
            ("Resource not found: Model ID '" ++ model_id ++ "' not found."))) ∧
    (∀ r params, find_model_context model_id store = some r →
      parseJson r.parameters = some params → r.metrics = none →
      resource_model_context_handler store model_id
        = Except.ok (RpcResult.success (Json.obj [("version", Json.str r.version),
            ("status", Json.str r.status), ("parameters", params), ("metrics", Json.null)]))) := by
  constructor
  · intro hnone
    simp [resource_model_context_handler, hnone]
  · intro r params hfind hparams hmetrics
    simp [resource_model_context_handler, hfind, hparams, hmetrics]

/-- Witness for C8: the empty store answers not-found for `"missing"`, and
the store holding `(m1, 1, ready, "\x7b\x7d", NULL)` answers success with
`metrics = null`. -/
theorem c8_model_context_lookup_witness :
    resource_model_context_handler [] "missing"
        = Except.ok (RpcResult.error (-32004)
            "Resource not found: Model ID 'missing' not found.") ∧
    resource_model_context_handler [⟨"m1", "1", "ready", "\x7b\x7d", none⟩] "m1"
        = Except.ok (RpcResult.success (Json.obj [("version", Json.str "1"),
            ("status", Json.str "ready"), ("parameters", Json.obj []),
            ("metrics", Json.null)])) :=
  ⟨(c8_model_context_lookup [] "missing").1 rfl,
   (c8_model_context_lookup [⟨"m1", "1", "ready", "\x7b\x7d", none⟩] "m1").2
     ⟨"m1", "1", "ready", "\x7b\x7d", none⟩ (Json.obj []) rfl rfl rfl⟩

/-- C9: on the stdio transport, every non-empty input line that is not valid
JSON produces exactly one parse-error response line (code `-32700`, `id`
null) after which the loop continues with the remaining lines; the loop
terminates exactly at the end of the input stream. -/
theorem c9_stdio_parse_error_loop (dispatch : Json → Json) (line : String) (rest : List String) :
    (line ≠ "" → parseJson line = none →
      main_stdio dispatch (line :: rest) = parse_error_response :: main_stdio dispatch rest) ∧
    main_stdio dispatch ("" :: rest) = [] ∧
    main_stdio dispatch ([] : List String) = [] := by
  refine ⟨fun hne hparse => ?_, ?_, rfl⟩
  · simp [main_stdio, hne, hparse]
  · simp [main_stdio]

/-- Witness for C9: one malformed line yields exactly the parse-error line
and a clean end of the loop. -/
theorem c9_stdio_parse_error_loop_witness :
    main_stdio (fun _ => Json.null) ["nonsense line"] = [parse_error_response] := by
  have h := c9_stdio_parse_error_loop (fun _ => Json.null) "nonsense line" []
  rw [h.1 (by decide) (by rfl), h.2.2]

/-- C10: a prompt name present in the configuration but mapped to a falsy
value (such as an empty object) is reported as not found (`-32004`) rather
than returned; and for a present, truthy object entry, a missing `template`
or `description` field is rendered as the empty string instead of failing. -/
theorem c10_prompt_falsy_and_missing_fields (prompts_config : List (String × Json))
    (prompt_name : String) :
    (∀ v, lookupJson prompt_name prompts_config = some v → pyTruthy v = false →
      prompt_handler prompts_config prompt_name
        = Except.ok (RpcResult.error (-32004)
            ("Prompt '" ++ prompt_name ++ "' not found."))) ∧
    (∀ members, lookupJson prompt_name prompts_config = some (Json.obj members) →
      pyTruthy (Json.obj members) = true →
      lookupJson "template" members = none → lookupJson "description" members = none →
      prompt_handler prompts_config prompt_name
        = Except.ok (RpcResult.success (Json.obj [("template", Json.str ""),
            ("description", Json.str "")]))) ∧
    (∀ members d, lookupJson prompt_name prompts_config = some (Json.obj members) →
      pyTruthy (Json.obj members) = true →
      lookupJson "template" members = none → lookupJson "description" members = some d →
      prompt_handler prompts_config prompt_name
        = Except.ok (RpcResult.success (Json.obj [("template", Json.str ""),
            ("description", d)]))) ∧
    (∀ members t, lookupJson prompt_name prompts_config = some (Json.obj members) →
      pyTruthy (Json.obj members) = true →
      lookupJson "description" members = none → lookupJson "template" members = some t →
      prompt_handler prompts_config prompt_name
        = Except.ok (RpcResult.success (Json.obj [("template", t),
            ("description", Json.str "")]))) := by
  refine ⟨fun v hv hfalsy => ?_, fun members hm htr ht hd => ?_,
    fun members d hm htr ht hd => ?_, fun members t hm htr hd ht => ?_⟩
  · simp [prompt_handler, hv, hfalsy]
  · simp [prompt_handler, hm, htr, ht, hd]
  · simp [prompt_handler, hm, htr, ht, hd]
  · simp [prompt_handler, hm, htr, ht, hd]

/-- Witness for C10: a prompt mapped to the empty object is not found, and a
truthy prompt with neither `template` nor `description` yields two empty
strings. -/
theorem c10_prompt_falsy_and_missing_fields_witness :
    prompt_handler [("empty", Json.obj []), ("p", Json.obj [("x", Json.bool true)])] "empty"
        = Except.ok (RpcResult.error (-32004) "Prompt 'empty' not found.") ∧
    prompt_handler [("empty", Json.obj []), ("p", Json.obj [("x", Json.bool true)])] "p"
        = Except.ok (RpcResult.success (Json.obj [("template", Json.str ""),
            ("description", Json.str "")])) :=
  ⟨(c10_prompt_falsy_and_missing_fields
      [("empty", Json.obj []), ("p", Json.obj [("x", Json.bool true)])] "empty").1
      (Json.obj []) rfl rfl,
   (c10_prompt_falsy_and_missing_fields
      [("empty", Json.obj []), ("p", Json.obj [("x", Json.bool true)])] "p").2.1
      [("x", Json.bool true)] rfl rfl rfl rfl⟩
